import Mathlib

/-!
Shallow embedding of `lensedquasarsutilities/image_fitting_blind.py`
(`SimpleLensedQuasarModel` and its helpers), over exact fields
(`ℚ` or `ℝ`) in place of IEEE floats.

The point-source renderer `translate_and_scale_psf` calls
`jax.image.scale_and_translate(psf, outshape, (0, 1), scale, translation,
method='bicubic')`; we embed jax's separable resampler: for each axis a
weight matrix is built from the Keys cubic kernel (a = -1/2), with
antialiasing (kernel stretched by `1/scale` when downscaling), column
normalisation, and zeroing of columns whose sample point falls outside
the input range.  jax guards the normalisation with
`|colsum| > 1000 * eps(float32)`; in exact arithmetic this is idealised
to `colsum ≠ 0`.

Transcendental operations (`exp`, `cos`, `sin`, `sqrt`, `π`, real powers)
from the Sérsic profile and the Gaussian PSF smoothing are embedded over
`ℝ` with the corresponding exact real functions.
-/

set_option maxHeartbeats 2000000

namespace LQU

/-! ## The jax bicubic resampler and `translate_and_scale_psf` -/

/-- Keys cubic convolution kernel (jax `_keys_cubic_kernel`, a = -1/2),
applied to a nonnegative distance `x`. -/
def keysCubic {α : Type} [LinearOrderedField α] (x : α) : α :=
  if 2 ≤ x then 0
  else if 1 ≤ x then ((-(1/2) * x + 5/2) * x - 4) * x + 2
  else ((3/2 * x - 5/2) * x) * x + 1

/-- Source coordinate (in input pixels) sampled by output pixel `o`
(jax `compute_weight_mat`: `sample_f`); `scale` is the jax scale argument,
so `1/scale` is the inverse scale. -/
def sampleF {α : Type} [LinearOrderedField α] (scale t : α) (o : ℕ) : α :=
  ((o : α) + 1/2) * (1/scale) - t * (1/scale) - 1/2

/-- Antialiasing kernel stretch factor (`kernel_scale = max(1/scale, 1)`). -/
def kernelScale {α : Type} [LinearOrderedField α] (scale : α) : α :=
  max (1/scale) 1

/-- Unnormalised resampling weight of input pixel `i` toward output pixel `o`. -/
def rawWeight {α : Type} [LinearOrderedField α] (scale t : α) (i o : ℕ) : α :=
  keysCubic (|sampleF scale t o - (i : α)| / kernelScale scale)

/-- Per-output-column sum of the unnormalised weights over the `m` input pixels. -/
def colSum {α : Type} [LinearOrderedField α] (scale t : α) (m o : ℕ) : α :=
  ∑ i in Finset.range m, rawWeight scale t i o

/-- Normalised resampling weight: columns are normalised by their sum
(idealising jax's `1000·eps` float guard to `≠ 0`), and columns whose
sample point lies outside `[-1/2, m - 1/2]` are zeroed. -/
def weight {α : Type} [LinearOrderedField α] (scale t : α) (m i o : ℕ) : α :=
  if colSum scale t m o = 0 then 0
  else if -(1/2) ≤ sampleF scale t o ∧ sampleF scale t o ≤ (m : α) - 1/2
    then rawWeight scale t i o / colSum scale t m o
    else 0

/-- Separable 2-D resampling (`jax.image.scale_and_translate` on spatial
dims (0, 1)): contract the two per-axis weight matrices with the image. -/
def scaleAndTranslate2d {α : Type} [LinearOrderedField α] (m1 m2 : ℕ)
    (img : ℕ → ℕ → α) (scale1 scale2 t1 t2 : α) (o1 o2 : ℕ) : α :=
  ∑ i1 in Finset.range m1, ∑ i2 in Finset.range m2,
    weight scale1 t1 m1 i1 o1 * weight scale2 t2 m2 i2 o2 * img i1 i2

/-- Zero-offset part of the translation used by `translate_and_scale_psf`
along an axis of output size `N`: `outoffset + (N - inishape)/s` with
`outoffset = (inishape/2)/s` and `inishape = mB = psf.shape[1]`. -/
def taspTranslation {α : Type} [LinearOrderedField α] (N mB s : ℕ) : α :=
  ((mB : α) / 2) / (s : α) + ((N : α) - (mB : α)) / (s : α)

/-- `SimpleLensedQuasarModel.translate_and_scale_psf`: place a supersampled
`mA × mB` PSF on the `Nx × Ny` pixel grid with sub-pixel offsets
`(dx, dy)` and the given amplitude; `s` is the supersampling factor,
`scale = (1/s, 1/s)` and `translation = (dy + outoffsetx, dx + outoffsety)`
exactly as in the source (which assumes a square PSF and reads
`inishape = psf.shape[1]`). -/
def translateAndScalePsf {α : Type} [LinearOrderedField α]
    (Nx Ny s mA mB : ℕ) (dx dy amplitude : α) (psf : ℕ → ℕ → α)
    (o1 o2 : ℕ) : α :=
  amplitude *
    scaleAndTranslate2d mA mB psf (1/(s : α)) (1/(s : α))
      (dy + taspTranslation Nx mB s) (dx + taspTranslation Ny mB s) o1 o2

/-! ## Pixel grid, parameter vectors, model state -/

/-- Grid coordinate values: `np.arange(-n//2, n//2)[j]`, i.e.
`j - ceil(n/2)` (Python floor division of the negated size). -/
def gridCoord (n j : ℕ) : ℤ :=
  (j : ℤ) - ((n + 1) / 2 : ℕ)

/-- Parameter dictionary for the point-source-only model: keys
`positions` (x1, y1, x2, y2), one amplitude pair per band, and one
astrometric offset pair per non-reference band (index ≥ 1; the entry at
index 0 is never read, mirroring the absent `offsets_<band0>` key). -/
structure ParamsNoGal (α : Type) where
  x1 : α
  y1 : α
  x2 : α
  y2 : α
  A1 : ℕ → α
  A2 : ℕ → α
  dx : ℕ → α
  dy : ℕ → α

/-- The `galparams` group: galaxy centre, morphology (r_e, ellip, theta)
and per-band Sérsic amplitude `I_e_<band>`. -/
structure GalParams (α : Type) where
  xg : α
  yg : α
  r_e : α
  ellip : α
  theta : α
  I_e : ℕ → α

/-- Parameter dictionary for the galaxy-inclusive model: the
point-source parameters plus the `galparams` group. -/
structure ParamsGal (α : Type) extends ParamsNoGal α where
  gal : GalParams α

/-- Per-band x position of the first point source:
`jnp.array([x1] + [x1 + params[offsets_band][0] for band in bands[1:]])`. -/
def xs1 {α : Type} [LinearOrderedField α] (p : ParamsNoGal α) (b : ℕ) : α :=
  if b = 0 then p.x1 else p.x1 + p.dx b

/-- Per-band y position of the first point source. -/
def ys1 {α : Type} [LinearOrderedField α] (p : ParamsNoGal α) (b : ℕ) : α :=
  if b = 0 then p.y1 else p.y1 + p.dy b

/-- Per-band x position of the second point source. -/
def xs2 {α : Type} [LinearOrderedField α] (p : ParamsNoGal α) (b : ℕ) : α :=
  if b = 0 then p.x2 else p.x2 + p.dx b

/-- Per-band y position of the second point source. -/
def ys2 {α : Type} [LinearOrderedField α] (p : ParamsNoGal α) (b : ℕ) : α :=
  if b = 0 then p.y2 else p.y2 + p.dy b

/-- Per-band x position of the galaxy:
`jnp.array([xg] + [xg + params[offsets_band][0] for band in bands[1:]])`. -/
def xgs {α : Type} [LinearOrderedField α] (q : ParamsGal α) (b : ℕ) : α :=
  if b = 0 then q.gal.xg else q.gal.xg + q.dx b

/-- Per-band y position of the galaxy. -/
def ygs {α : Type} [LinearOrderedField α] (q : ParamsGal α) (b : ℕ) : α :=
  if b = 0 then q.gal.yg else q.gal.yg + q.dy b

/-- A 3-D array (band stack): explicit dimensions plus a value map. -/
structure Arr3 (α : Type) where
  n1 : ℕ
  n2 : ℕ
  n3 : ℕ
  val : ℕ → ℕ → ℕ → α

/-- State of a `SimpleLensedQuasarModel` instance: the (rescaled) data
and noise stacks, the smoothed PSF stack, the retained normalisation
scale, the supersampling factor, the ordered band list, and the four
parameter-estimate slots that start as `None`. -/
structure LQState (α : Type) where
  scale : α
  data : Arr3 α
  noisemap : Arr3 α
  psf : Arr3 α
  upsampling : ℕ
  bandnames : List ℕ
  paramOptimNoGal : Option (List α)
  paramOptimWithGal : Option (List α)
  paramMedianNoGal : Option (ParamsNoGal α)
  paramMedianWithGal : Option (ParamsGal α)

/-- `self.data.size`: total number of data pixels. -/
def dataSize {α : Type} (st : LQState α) : ℕ :=
  st.data.n1 * st.data.n2 * st.data.n3

/-- Number of top-level entries of the no-galaxy parameter dictionary
for `nb` bands: `positions`, one entry per band, and one `offsets_<band>`
entry per non-reference band — this is what Python's `len(params)`
returns on that dictionary. -/
def paramsDictLenNoGal (nb : ℕ) : ℕ :=
  1 + nb + (nb - 1)

/-- Number of scalar parameters in the flattened no-galaxy parameter
dictionary for `nb` bands: 4 positions, 2 amplitudes per band, 2 offsets
per non-reference band. -/
def paramsFlatLenNoGal (nb : ℕ) : ℕ :=
  4 + 2 * nb + 2 * (nb - 1)

/-- Number of top-level entries of the galaxy-inclusive parameter
dictionary: the no-galaxy entries plus the single `galparams` entry. -/
def paramsDictLenWithGal (nb : ℕ) : ℕ :=
  1 + nb + (nb - 1) + 1

/-- Number of scalar parameters in the flattened galaxy-inclusive
parameter dictionary: the no-galaxy scalars plus the galaxy centre (2),
morphology (3) and one `I_e` per band. -/
def paramsFlatLenWithGal (nb : ℕ) : ℕ :=
  4 + 2 * nb + 2 * (nb - 1) + (2 + 3 + nb)

/-- `SimpleLensedQuasarModel.model_no_galaxy` at band `b`, pixel
`(o1, o2)`: the sum of the two rendered point sources, with the grid
shape taken from the data stack (`outshape = self.X.shape`) and band
positions `shared + offset` (offset 0 for the reference band). -/
def modelNoGalaxy {α : Type} [LinearOrderedField α]
    (st : LQState α) (p : ParamsNoGal α) (b o1 o2 : ℕ) : α :=
  translateAndScalePsf st.data.n2 st.data.n3 st.upsampling st.psf.n2 st.psf.n3
      (xs1 p b) (ys1 p b) (p.A1 b) (fun i j => st.psf.val b i j) o1 o2 +
  translateAndScalePsf st.data.n2 st.data.n3 st.upsampling st.psf.n2 st.psf.n3
      (xs2 p b) (ys2 p b) (p.A2 b) (fun i j => st.psf.val b i j) o1 o2

/-- `residuals_no_galaxy`: noise-normalised residual at one pixel
(the `.flatten()` does not change the multiset of values). -/
def residualsNoGal {α : Type} [LinearOrderedField α]
    (st : LQState α) (p : ParamsNoGal α) (b i j : ℕ) : α :=
  (modelNoGalaxy st p b i j - st.data.val b i j) / st.noisemap.val b i j

/-- Sum of squared residuals of the no-galaxy model
(`np.sum(residuals ** 2)`). -/
def chi2NoGal {α : Type} [LinearOrderedField α]
    (st : LQState α) (p : ParamsNoGal α) : α :=
  ∑ b in Finset.range st.data.n1, ∑ i in Finset.range st.data.n2,
    ∑ j in Finset.range st.data.n3, residualsNoGal st p b i j ^ 2

/-- `reduced_chi2_no_galaxy`: `chi2 / (self.data.size - len(params))`,
where `len(params)` of the parameter dictionary built for this model's
band list is its number of top-level entries. -/
def reducedChi2NoGal {α : Type} [LinearOrderedField α]
    (st : LQState α) (p : ParamsNoGal α) : α :=
  chi2NoGal st p /
    ((dataSize st : α) - (paramsDictLenNoGal st.bandnames.length : α))

/-- Materialised band stack: list of per-band images (lists of rows),
as produced by `vmap`-ing the renderer over the band axis and by the
numpy data array. -/
def stack3 {α : Type} (n1 n2 n3 : ℕ) (f : ℕ → ℕ → ℕ → α) :
    List (List (List α)) :=
  (List.range n1).map fun b =>
    (List.range n2).map fun i =>
      (List.range n3).map fun j => f b i j

/-- Shape predicate: `x` is an `n1 × n2 × n3` stack. -/
def regular3 {α : Type} (x : List (List (List α))) (n1 n2 n3 : ℕ) : Prop :=
  x.length = n1 ∧ ∀ p ∈ x, p.length = n2 ∧ ∀ r ∈ p, r.length = n3

/-- Materialised output of `model_no_galaxy`: one image per band in the
band list, each of the grid shape. -/
def modelNoGalaxyStack {α : Type} [LinearOrderedField α]
    (st : LQState α) (p : ParamsNoGal α) : List (List (List α)) :=
  stack3 st.bandnames.length st.data.n2 st.data.n3 (modelNoGalaxy st p)

/-- Materialised 3-D array. -/
def arrStack {α : Type} (A : Arr3 α) : List (List (List α)) :=
  stack3 A.n1 A.n2 A.n3 A.val

/-! ## Sérsic profile and galaxy-inclusive model (over ℝ) -/

/-- Fixed Sérsic shape constant: `n = 3` and
`bn = 1.9992 * n - 0.3271` (the source's approximation, valid for
`0.5 < n < 10`). -/
noncomputable def sersicBn : ℝ := 1.9992 * 3 - 0.3271

/-- `SimpleLensedQuasarModel.elliptical_sersic_profile` at grid pixel
`(i, j)`: rotate the grid by `theta` (degrees → radians), squeeze the
minor axis by `q = 1 - ellip`, form the elliptical radius and evaluate
`I_e * exp(-bn * ((r/r_e)^(1/n) - 1))` with `n = 3` (the float `1/n`
is idealised as the exact `1/3`). -/
noncomputable def ellipticalSersicProfile (Nx Ny : ℕ)
    (I_e r_e x0 y0 ellip theta : ℝ) (i j : ℕ) : ℝ :=
  let q : ℝ := 1 - ellip
  let th : ℝ := theta * Real.pi / 180
  let Xc : ℝ := ((gridCoord Ny j : ℤ) : ℝ)
  let Yc : ℝ := ((gridCoord Nx i : ℤ) : ℝ)
  let xt : ℝ := (Xc - x0) * Real.cos th + (Yc - y0) * Real.sin th
  let yt : ℝ := (Yc - y0) * Real.cos th - (Xc - x0) * Real.sin th
  let r : ℝ := Real.sqrt (xt ^ 2 + (yt / q) ^ 2)
  I_e * Real.exp (-sersicBn * ((r / r_e) ^ ((1 : ℝ) / 3) - 1))

/-- The per-band galaxy-only render: the Sérsic profile with the band's
`I_e`, shared morphology, and the galaxy position plus the band's
astrometric offset. -/
noncomputable def galaxyOnlyRender (st : LQState ℝ) (q : ParamsGal ℝ)
    (b i j : ℕ) : ℝ :=
  ellipticalSersicProfile st.data.n2 st.data.n3 (q.gal.I_e b) q.gal.r_e
    (xgs q b) (ygs q b) q.gal.ellip q.gal.theta i j

/-- `SimpleLensedQuasarModel.model_with_galaxy`: the no-galaxy model plus
the per-band Sérsic render (`model += vecsersic(xgs, ygs, I_es)`). -/
noncomputable def modelWithGalaxy (st : LQState ℝ) (q : ParamsGal ℝ)
    (b i j : ℕ) : ℝ :=
  modelNoGalaxy st q.toParamsNoGal b i j +
    ellipticalSersicProfile st.data.n2 st.data.n3 (q.gal.I_e b) q.gal.r_e
      (xgs q b) (ygs q b) q.gal.ellip q.gal.theta i j

/-- `residuals_with_galaxy` at one pixel. -/
noncomputable def residualsWithGal (st : LQState ℝ) (q : ParamsGal ℝ)
    (b i j : ℕ) : ℝ :=
  (modelWithGalaxy st q b i j - st.data.val b i j) / st.noisemap.val b i j

/-- Sum of squared residuals of the galaxy-inclusive model. -/
noncomputable def chi2WithGal (st : LQState ℝ) (q : ParamsGal ℝ) : ℝ :=
  ∑ b in Finset.range st.data.n1, ∑ i in Finset.range st.data.n2,
    ∑ j in Finset.range st.data.n3, residualsWithGal st q b i j ^ 2

/-- `reduced_chi2_with_galaxy`. -/
noncomputable def reducedChi2WithGal (st : LQState ℝ) (q : ParamsGal ℝ) : ℝ :=
  chi2WithGal st q /
    ((dataSize st : ℝ) - (paramsDictLenWithGal st.bandnames.length : ℝ))

/-- Materialised output of `model_with_galaxy`. -/
noncomputable def modelWithGalaxyStack (st : LQState ℝ) (q : ParamsGal ℝ) :
    List (List (List ℝ)) :=
  stack3 st.bandnames.length st.data.n2 st.data.n3 (modelWithGalaxy st q)

/-! ## Gaussian smoothing of the narrow PSF stack

`scipy.ndimage.gaussian_filter(narrowpsf, 0.85)` with a scalar sigma
applies a 1-D Gaussian correlation along EVERY axis of the 3-D stack —
including the band axis.  Kernel radius `int(4*0.85 + 0.5) = 3`,
weights `exp(-x²/(2·0.85²))` normalised to unit sum, boundary mode
`reflect`. -/

/-- Unnormalised Gaussian kernel value at offset `k`. -/
noncomputable def gaussPhi (k : ℤ) : ℝ :=
  Real.exp (-(1/2) / (0.85 : ℝ) ^ 2 * (k : ℝ) ^ 2)

/-- Kernel normalisation: the sum of the 7 taps (offsets −3..3). -/
noncomputable def gaussZ : ℝ :=
  ∑ t in Finset.range 7, gaussPhi ((t : ℤ) - 3)

/-- Normalised Gaussian kernel tap. -/
noncomputable def gaussW (k : ℤ) : ℝ := gaussPhi k / gaussZ

/-- Scipy's `reflect` boundary index map for an axis of length `n`
(`(d c b a | a b c d | d c b a)`). -/
def reflectIdx (n : ℕ) (x : ℤ) : ℕ :=
  let p : ℤ := 2 * (n : ℤ)
  let y : ℤ := x % p
  (if y < (n : ℤ) then y else p - 1 - y).toNat

/-- Gaussian correlation along axis 0 (the band axis). -/
noncomputable def corrBands (A : Arr3 ℝ) : Arr3 ℝ :=
  ⟨A.n1, A.n2, A.n3, fun b i j =>
    ∑ t in Finset.range 7,
      gaussW ((t : ℤ) - 3) * A.val (reflectIdx A.n1 ((b : ℤ) + ((t : ℤ) - 3))) i j⟩

/-- Gaussian correlation along axis 1. -/
noncomputable def corrRows (A : Arr3 ℝ) : Arr3 ℝ :=
  ⟨A.n1, A.n2, A.n3, fun b i j =>
    ∑ t in Finset.range 7,
      gaussW ((t : ℤ) - 3) * A.val b (reflectIdx A.n2 ((i : ℤ) + ((t : ℤ) - 3))) j⟩

/-- Gaussian correlation along axis 2. -/
noncomputable def corrCols (A : Arr3 ℝ) : Arr3 ℝ :=
  ⟨A.n1, A.n2, A.n3, fun b i j =>
    ∑ t in Finset.range 7,
      gaussW ((t : ℤ) - 3) * A.val b i (reflectIdx A.n3 ((j : ℤ) + ((t : ℤ) - 3)))⟩

/-- `gaussian_filter(narrowpsf, 0.85)` on the 3-D stack: separable
correlation along axes 0, 1, 2. -/
noncomputable def gaussianFilter3 (A : Arr3 ℝ) : Arr3 ℝ :=
  corrCols (corrRows (corrBands A))

/-! ## Construction (`__init__`) -/

/-- Linear-interpolation percentile (`np.nanpercentile` with the default
method on NaN-free data): sort, take position `q/100 * (len-1)`,
linearly interpolate between the bracketing order statistics. -/
def percentileNP {α : Type} [LinearOrderedField α] (q : ℚ) (l : List α) : α :=
  let s := List.insertionSort (· ≤ ·) l
  let h : ℚ := q / 100 * ((l.length : ℚ) - 1)
  let i : ℕ := (⌊h⌋).toNat
  let lo := s.getD i 0
  lo + ((h - ⌊h⌋ : ℚ) : α) * (s.getD (i + 1) lo - lo)

/-- Row-major flattening of a 3-D array. -/
def flatten3 {α : Type} (A : Arr3 α) : List α :=
  ((stack3 A.n1 A.n2 A.n3 A.val).map List.flatten).flatten

/-- The normalisation scale: `np.nanpercentile(data, 99.9)`. -/
noncomputable def initScale (data : Arr3 ℝ) : ℝ :=
  percentileNP (999/10) (flatten3 data)

/-- The state built by `__init__` once its assertions pass: data and
noise divided by the 99.9th-percentile scale (which is retained), the
narrow PSF smoothed by `gaussian_filter(·, 0.85)`, and empty parameter
slots. -/
noncomputable def mkState (data noisemap narrowpsf : Arr3 ℝ) (u : ℕ)
    (bn : List ℕ) : LQState ℝ :=
  { scale := initScale data
    data := ⟨data.n1, data.n2, data.n3,
      fun b i j => data.val b i j / initScale data⟩
    noisemap := ⟨noisemap.n1, noisemap.n2, noisemap.n3,
      fun b i j => noisemap.val b i j / initScale data⟩
    psf := gaussianFilter3 narrowpsf
    upsampling := u
    bandnames := bn
    paramOptimNoGal := none
    paramOptimWithGal := none
    paramMedianNoGal := none
    paramMedianWithGal := none }

/-- `SimpleLensedQuasarModel.__init__`: asserts
`data.shape == noisemap.shape` and then
`nband == narrowpsf.shape[0] == len(bandnames)`; on success returns the
constructed state, otherwise no instance is produced.  No other shape
check is performed (in particular none on the per-band PSF size). -/
noncomputable def init (data noisemap narrowpsf : Arr3 ℝ) (u : ℕ)
    (bn : List ℕ) : Option (LQState ℝ) :=
  if data.n1 = noisemap.n1 ∧ data.n2 = noisemap.n2 ∧ data.n3 = noisemap.n3 then
    if data.n1 = narrowpsf.n1 ∧ narrowpsf.n1 = bn.length then
      some (mkState data noisemap narrowpsf u bn)
    else none
  else none

/-! ## Method calls as state transitions -/

/-- One public method call on a model instance.  The optimizer and
sampler calls carry the value their numerical backend returned (the
embedding does not model `scipy.optimize.least_squares` or the MCMC
chain itself, only the effect of the call on the instance state). -/
inductive MCall (α : Type) where
  | evalModelNoGal (p : ParamsNoGal α)
  | evalModelWithGal (q : ParamsGal α)
  | evalResidualsNoGal (p : ParamsNoGal α)
  | evalResidualsWithGal (q : ParamsGal α)
  | evalChi2NoGal (p : ParamsNoGal α)
  | evalChi2WithGal (q : ParamsGal α)
  | runOptimizeNoGal (result : List α)
  | runOptimizeWithGal (result : List α)
  | runSampleNoGal (medians : ParamsNoGal α)
  | runSampleWithGal (medians : ParamsGal α)
  | plotNoGal
  | plotWithGal

/-- Effect of one method call on the instance state: only the four
parameter-estimate slots are ever written
(`self.param_optim_* = res.x`, `self.param_mediansampler_* = pps`);
every other method leaves the state unchanged. -/
def step {α : Type} (st : LQState α) : MCall α → LQState α
  | .runOptimizeNoGal r => { st with paramOptimNoGal := some r }
  | .runOptimizeWithGal r => { st with paramOptimWithGal := some r }
  | .runSampleNoGal m => { st with paramMedianNoGal := some m }
  | .runSampleWithGal m => { st with paramMedianWithGal := some m }
  | _ => st

/-- A sequence of method calls. -/
def runCalls {α : Type} (st : LQState α) (cs : List (MCall α)) : LQState α :=
  cs.foldl step st

/-! ## Concrete fixtures -/

/-- Fixture (C1): 3×3 PSF that is a unit point mass at its centre pixel
(symmetric under both reflections and transposition). -/
def deltaPsf3 : ℕ → ℕ → ℚ := fun i j => if i = 1 ∧ j = 1 then 1 else 0

/-- Fixture (C1): 6×6 PSF whose central 2×2 block is 1 and which
vanishes elsewhere (symmetric under both reflections and transposition,
with its maximum at the centre of the PSF image). -/
def psfBlock6 : ℕ → ℕ → ℚ := fun i j =>
  if (i = 2 ∨ i = 3) ∧ (j = 2 ∨ j = 3) then 1 else 0

/-- Fixture (C2): one-band 2×2 data and noise stack of ones. -/
def c2data : Arr3 ℚ := ⟨1, 2, 2, fun _ _ _ => 1⟩

/-- Fixture (C2): one-band 1×1 zero PSF stack. -/
def c2psf : Arr3 ℚ := ⟨1, 1, 1, fun _ _ _ => 0⟩

/-- Fixture (C2): a model state with one band, 2×2 data of ones, unit
noise and a zero PSF. -/
def c2st : LQState ℚ :=
  ⟨1, c2data, c2data, c2psf, 1, [0], none, none, none, none⟩

/-- Fixture (C2): the all-zero parameter dictionary (both amplitudes 0,
so the rendered model vanishes identically). -/
def c2params : ParamsNoGal ℚ :=
  ⟨0, 0, 0, 0, fun _ => 0, fun _ => 0, fun _ => 0, fun _ => 0⟩

/-- Fixture (C4): a one-band model state over ℝ. -/
def c4st : LQState ℝ :=
  ⟨1, ⟨1, 3, 4, fun _ _ _ => 0⟩, ⟨1, 3, 4, fun _ _ _ => 1⟩,
    ⟨1, 6, 6, fun _ _ _ => 0⟩, 2, [0], none, none, none, none⟩

/-- Fixture (C4): zero point-source parameters over ℝ. -/
def c4p : ParamsNoGal ℝ :=
  ⟨0, 0, 0, 0, fun _ => 0, fun _ => 0, fun _ => 0, fun _ => 0⟩

/-- Fixture (C4): zero parameters with a trivial galaxy group. -/
def c4q : ParamsGal ℝ := ⟨c4p, ⟨0, 0, 1, 0, 0, fun _ => 0⟩⟩

/-- Fixture (C6): distinct point-source parameters over ℝ. -/
def c6p : ParamsNoGal ℝ :=
  ⟨3, 4, 5, 6, fun _ => 7, fun _ => 8, fun _ => 2, fun _ => 9⟩

/-- Fixture (C6): galaxy-inclusive parameters over ℝ. -/
def c6q : ParamsGal ℝ := ⟨c6p, ⟨11, 12, 13, 14, 15, fun _ => 16⟩⟩

/-- Fixture (C6): a small model state over ℝ. -/
def c6st : LQState ℝ :=
  ⟨1, ⟨1, 3, 3, fun _ _ _ => 0⟩, ⟨1, 3, 3, fun _ _ _ => 1⟩,
    ⟨1, 6, 6, fun _ _ _ => 0⟩, 2, [0], none, none, none, none⟩

/-- Fixture (C7): 1×1×1 stack of ones. -/
def c7arr : Arr3 ℝ := ⟨1, 1, 1, fun _ _ _ => 1⟩

/-- Fixture (C8): two-band 1×1 narrow PSF stack whose band 0 is a unit
point mass and whose band 1 is identically zero. -/
def c8narrow : Arr3 ℝ := ⟨2, 1, 1, fun b _ _ => if b = 0 then 1 else 0⟩

/-- Fixture (C8): two-band 1×1 zero stack. -/
def c8zero : Arr3 ℝ := ⟨2, 1, 1, fun _ _ _ => 0⟩

/-- Fixture (C8): two-band 1×1 stack of ones (data/noise for `init`). -/
def c8ones : Arr3 ℝ := ⟨2, 1, 1, fun _ _ _ => 1⟩

/-- Fixture (C9): one-band 5×5 data stack of ones. -/
def c9data : Arr3 ℝ := ⟨1, 5, 5, fun _ _ _ => 1⟩

/-- Fixture (C9): one-band 17×17 PSF stack — its per-band size is
unrelated to the 5×5 data and is not a multiple of the supersampling
factor 2. -/
def c9psf : Arr3 ℝ := ⟨1, 17, 17, fun _ _ _ => 1⟩

/-! ## Helper lemmas -/

/-- Amplitude enters `translate_and_scale_psf` only as the final
multiplicative factor `amplitude * out`. -/
lemma translateAndScalePsf_amp {α : Type} [LinearOrderedField α]
    (Nx Ny s mA mB : ℕ) (dx dy a : α) (psf : ℕ → ℕ → α) (o1 o2 : ℕ) :
    translateAndScalePsf Nx Ny s mA mB dx dy a psf o1 o2 =
      a * translateAndScalePsf Nx Ny s mA mB dx dy 1 psf o1 o2 := by
  simp [translateAndScalePsf]

/-- Source position sampled by the centre pixel `(N-1)/2` of an odd-sized
output axis when the offset is zero: it is the PSF centre `(m-1)/2`
displaced by `N(s-2)/2` supersampled pixels.  Zero displacement therefore
requires supersampling factor `s = 2`. -/
lemma centerSampleF_formula (N m s : ℕ) (hs : 0 < s) (hN : Odd N) :
    sampleF (1/(s : ℚ)) ((0 : ℚ) + taspTranslation N m s) ((N - 1)/2) =
      ((m : ℚ) - 1)/2 + (N : ℚ) * ((s : ℚ) - 2)/2 := by
  obtain ⟨k, rfl⟩ := hN
  have h2 : (2 * k + 1 - 1) / 2 = k := by omega
  rw [h2]
  have hs' : ((s : ℚ)) ≠ 0 := by exact_mod_cast hs.ne'
  simp only [sampleF, taspTranslation]
  push_cast
  field_simp
  ring

lemma wA1_0 : weight (1 : ℚ) (3/2 : ℚ) 3 1 0 = 0 := by
  norm_num [weight, colSum, rawWeight, sampleF, kernelScale, keysCubic,
    Finset.sum_range_succ, abs_of_nonneg, abs_of_nonpos]

lemma wA1_1 : weight (1 : ℚ) (3/2 : ℚ) 3 1 1 = -(1/8) := by
  norm_num [weight, colSum, rawWeight, sampleF, kernelScale, keysCubic,
    Finset.sum_range_succ, abs_of_nonneg, abs_of_nonpos]

lemma wA1_2 : weight (1 : ℚ) (3/2 : ℚ) 3 1 2 = 9/17 := by
  norm_num [weight, colSum, rawWeight, sampleF, kernelScale, keysCubic,
    Finset.sum_range_succ, abs_of_nonneg, abs_of_nonpos]

lemma taspA_eq (o1 o2 : ℕ) :
    translateAndScalePsf 3 3 1 3 3 0 0 1 deltaPsf3 o1 o2 =
      scaleAndTranslate2d 3 3 deltaPsf3 1 1 (3/2) (3/2) o1 o2 := by
  norm_num [translateAndScalePsf, taspTranslation]

lemma baseA (o1 o2 : ℕ) :
    scaleAndTranslate2d 3 3 deltaPsf3 1 1 (3/2) (3/2) o1 o2 =
      weight (1 : ℚ) (3/2 : ℚ) 3 1 o1 * weight (1 : ℚ) (3/2 : ℚ) 3 1 o2 := by
  norm_num [scaleAndTranslate2d, deltaPsf3, Finset.sum_range_succ]

lemma wB2_0 : weight (1/2 : ℚ) (0 : ℚ) 6 2 0 = 29/239 := by
  norm_num [weight, colSum, rawWeight, sampleF, kernelScale, keysCubic,
    Finset.sum_range_succ, abs_of_nonneg, abs_of_nonpos]

lemma wB2_1 : weight (1/2 : ℚ) (0 : ℚ) 6 2 1 = 111/262 := by
  norm_num [weight, colSum, rawWeight, sampleF, kernelScale, keysCubic,
    Finset.sum_range_succ, abs_of_nonneg, abs_of_nonpos]

lemma wB2_2 : weight (1/2 : ℚ) (0 : ℚ) 6 2 2 = -(9/239) := by
  norm_num [weight, colSum, rawWeight, sampleF, kernelScale, keysCubic,
    Finset.sum_range_succ, abs_of_nonneg, abs_of_nonpos]

lemma wB3_0 : weight (1/2 : ℚ) (0 : ℚ) 6 3 0 = -(9/239) := by
  norm_num [weight, colSum, rawWeight, sampleF, kernelScale, keysCubic,
    Finset.sum_range_succ, abs_of_nonneg, abs_of_nonpos]

lemma wB3_1 : weight (1/2 : ℚ) (0 : ℚ) 6 3 1 = 111/262 := by
  norm_num [weight, colSum, rawWeight, sampleF, kernelScale, keysCubic,
    Finset.sum_range_succ, abs_of_nonneg, abs_of_nonpos]

lemma wB3_2 : weight (1/2 : ℚ) (0 : ℚ) 6 3 2 = 29/239 := by
  norm_num [weight, colSum, rawWeight, sampleF, kernelScale, keysCubic,
    Finset.sum_range_succ, abs_of_nonneg, abs_of_nonpos]

lemma taspB_eq (A : ℚ) (o1 o2 : ℕ) :
    translateAndScalePsf 3 3 2 6 6 0 0 A psfBlock6 o1 o2 =
      A * scaleAndTranslate2d 6 6 psfBlock6 (1/2) (1/2) 0 0 o1 o2 := by
  norm_num [translateAndScalePsf, taspTranslation]

lemma baseB (o1 o2 : ℕ) :
    scaleAndTranslate2d 6 6 psfBlock6 (1/2) (1/2) 0 0 o1 o2 =
      (weight (1/2 : ℚ) (0 : ℚ) 6 2 o1 + weight (1/2 : ℚ) (0 : ℚ) 6 3 o1) *
      (weight (1/2 : ℚ) (0 : ℚ) 6 2 o2 + weight (1/2 : ℚ) (0 : ℚ) 6 3 o2) := by
  simp only [scaleAndTranslate2d, psfBlock6, Finset.sum_range_succ,
    Finset.sum_range_zero]
  norm_num
  ring

/-- The `stack3` materialiser always produces a stack of its declared
shape. -/
lemma regular3_stack3 {α : Type} (n1 n2 n3 : ℕ) (f : ℕ → ℕ → ℕ → α) :
    regular3 (stack3 n1 n2 n3 f) n1 n2 n3 := by
  refine ⟨by simp [stack3], ?_⟩
  intro p hp
  simp only [stack3, List.mem_map] at hp
  obtain ⟨b, _, rfl⟩ := hp
  refine ⟨by simp, ?_⟩
  intro r hr
  simp only [List.mem_map] at hr
  obtain ⟨i, _, rfl⟩ := hr
  simp

/-- A single method call never writes the data stack, the noise stack or
the retained scale. -/
lemma step_fields {α : Type} (st : LQState α) (c : MCall α) :
    (step st c).data = st.data ∧ (step st c).noisemap = st.noisemap ∧
      (step st c).scale = st.scale := by
  cases c <;> exact ⟨rfl, rfl, rfl⟩

/-- No sequence of method calls writes the data stack, the noise stack
or the retained scale. -/
lemma runCalls_fields {α : Type} (st : LQState α) (cs : List (MCall α)) :
    (runCalls st cs).data = st.data ∧ (runCalls st cs).noisemap = st.noisemap ∧
      (runCalls st cs).scale = st.scale := by
  induction cs generalizing st with
  | nil => exact ⟨rfl, rfl, rfl⟩
  | cons c cs ih =>
    have h1 := step_fields st c
    have h2 := ih (step st c)
    exact ⟨h2.1.trans h1.1, h2.2.1.trans h1.2.1, h2.2.2.trans h1.2.2⟩

lemma gaussPhi_pos (k : ℤ) : 0 < gaussPhi k := Real.exp_pos _

lemma gaussZ_pos : 0 < gaussZ := by
  refine Finset.sum_pos (fun t _ => gaussPhi_pos _) ?_
  exact ⟨0, by norm_num⟩

lemma gaussW_pos (k : ℤ) : 0 < gaussW k := div_pos (gaussPhi_pos k) gaussZ_pos

lemma gaussW_sum : (∑ t in Finset.range 7, gaussW ((t : ℤ) - 3)) = 1 := by
  unfold gaussW
  rw [← Finset.sum_div]
  have h : (∑ t in Finset.range 7, gaussPhi ((t : ℤ) - 3)) = gaussZ := rfl
  rw [h]
  exact div_self gaussZ_pos.ne'

/-- The reflect boundary map collapses a length-1 axis to index 0. -/
lemma reflectIdx_one (x : ℤ) : reflectIdx 1 x = 0 := by
  simp only [reflectIdx]
  norm_num
  rcases Int.emod_two_eq x with h | h <;> simp [h]

/-! ## Claim C1 -/

/-- C1 (counterexample).  The claim states that for every symmetric square
PSF and amplitude, `translate_and_scale_psf` with `dx = dy = 0` on an
odd-sized grid peaks at the exact geometric centre pixel, with pixel sum
`≈ A * sum(PSF)`.  With supersampling factor 1, the odd 3×3 grid, the
symmetric centre point-mass PSF `deltaPsf3` and amplitude 1, the value at
the geometric centre pixel (1,1) is 1/64 while pixel (2,2) carries 81/289,
so the peak is not at the centre; moreover the pixel sum is
3025/18496 ≈ 0.16 while `A * sum(PSF) = 1`. -/
theorem C1_counterexample :
    translateAndScalePsf 3 3 1 3 3 0 0 1 deltaPsf3 1 1 = 1/64 ∧
    translateAndScalePsf 3 3 1 3 3 0 0 1 deltaPsf3 2 2 = 81/289 ∧
    translateAndScalePsf 3 3 1 3 3 0 0 1 deltaPsf3 1 1 <
      translateAndScalePsf 3 3 1 3 3 0 0 1 deltaPsf3 2 2 ∧
    (∑ o1 in Finset.range 3, ∑ o2 in Finset.range 3,
        translateAndScalePsf 3 3 1 3 3 0 0 1 deltaPsf3 o1 o2) = 3025/18496 ∧
    (1 : ℚ) * (∑ i in Finset.range 3, ∑ j in Finset.range 3, deltaPsf3 i j) = 1 := by
  refine ⟨?_, ?_, ?_, ?_, ?_⟩ <;>
  · simp only [taspA_eq, baseA, wA1_0, wA1_1, wA1_2, Finset.sum_range_succ,
      Finset.sum_range_zero, deltaPsf3]
    norm_num

/-- C1 (amended).  Zero-offset placement: for every PSF size `m`, odd
output size `N` and supersampling factor `s > 0`, the source position
sampled by the centre output pixel is the PSF centre `(m-1)/2` plus a
displacement `N(s-2)/2`; it coincides with the PSF centre exactly when
`s = 2` (the factor this pipeline uses).  With `s = 2`, on the concrete
odd 3×3 grid with the symmetric centre-peaked PSF `psfBlock6` and any
amplitude `A > 0`, the rendered image attains its strict maximum at the
exact geometric centre pixel (1,1), and its pixel sum is
`A * 1009269361/980253481 ≈ A * sum(PSF)/s²` (not `A * sum(PSF)`). -/
theorem C1_amended :
    (∀ (N m s : ℕ), 0 < s → Odd N →
      sampleF (1/(s : ℚ)) ((0 : ℚ) + taspTranslation N m s) ((N - 1)/2) =
        ((m : ℚ) - 1)/2 + (N : ℚ) * ((s : ℚ) - 2)/2) ∧
    (∀ (N m : ℕ), Odd N →
      sampleF (1/((2 : ℕ) : ℚ)) ((0 : ℚ) + taspTranslation N m 2) ((N - 1)/2) =
        ((m : ℚ) - 1)/2) ∧
    (∀ A : ℚ, 0 < A →
      (∀ o1 o2 : ℕ, o1 < 3 → o2 < 3 → ¬(o1 = 1 ∧ o2 = 1) →
        translateAndScalePsf 3 3 2 6 6 0 0 A psfBlock6 o1 o2 <
          translateAndScalePsf 3 3 2 6 6 0 0 A psfBlock6 1 1) ∧
      (∑ o1 in Finset.range 3, ∑ o2 in Finset.range 3,
          translateAndScalePsf 3 3 2 6 6 0 0 A psfBlock6 o1 o2) =
        A * (1009269361/980253481)) := by
  refine ⟨fun N m s hs hN => centerSampleF_formula N m s hs hN, ?_, ?_⟩
  · intro N m hN
    have h := centerSampleF_formula N m 2 (by norm_num) hN
    rw [h]
    norm_num
  · intro A hA
    constructor
    · intro o1 o2 h1 h2 hne
      interval_cases o1 <;> interval_cases o2 <;>
        simp only [taspB_eq, baseB, wB2_0, wB2_1, wB2_2, wB3_0, wB3_1, wB3_2] <;>
        first
          | (refine mul_lt_mul_of_pos_left ?_ hA; norm_num; done)
          | simp at hne
    · simp only [taspB_eq, baseB, Finset.sum_range_succ, Finset.sum_range_zero,
        wB2_0, wB2_1, wB2_2, wB3_0, wB3_1, wB3_2]
      ring

/-- Witness for `C1_amended` at the concrete input `N = 3`, `m = 6`,
`s = 2`, `A = 1`, output pixel (0,0). -/
theorem C1_amended_witness :
    (0 < 2 ∧ Odd 3 ∧
      sampleF (1/((2 : ℕ) : ℚ)) ((0 : ℚ) + taspTranslation 3 6 2) ((3 - 1)/2) =
        ((6 : ℚ) - 1)/2 + (3 : ℚ) * (((2 : ℕ) : ℚ) - 2)/2) ∧
    ((0 : ℚ) < 1 ∧ ¬((0 : ℕ) = 1 ∧ (0 : ℕ) = 1) ∧
      translateAndScalePsf 3 3 2 6 6 0 0 1 psfBlock6 0 0 <
        translateAndScalePsf 3 3 2 6 6 0 0 1 psfBlock6 1 1) :=
  ⟨⟨by norm_num, by decide, C1_amended.1 3 6 2 (by norm_num) (by decide)⟩,
    ⟨by norm_num, by simp,
      (C1_amended.2.2 1 (by norm_num)).1 0 0 (by norm_num) (by norm_num) (by simp)⟩⟩

/-! ## Claim C2 -/

/-- C2 (counterexample).  On a one-band model with 2×2 data of ones, unit
noise and the all-zero parameter dictionary (whose rendered model
vanishes), the sum of squared residuals is 4 and the code divides it by
`size − len(params) = 4 − 2 = 2`, giving reduced chi-square 2; the
claim's flattened parameter count is 6, which would give
`4 / (4 − 6) = −2 ≠ 2`. -/
theorem C2_counterexample :
    chi2NoGal c2st c2params = 4 ∧
    paramsDictLenNoGal c2st.bandnames.length = 2 ∧
    paramsFlatLenNoGal c2st.bandnames.length = 6 ∧
    reducedChi2NoGal c2st c2params = 2 ∧
    chi2NoGal c2st c2params /
        ((dataSize c2st : ℚ) - (paramsFlatLenNoGal c2st.bandnames.length : ℚ)) =
      -2 ∧
    reducedChi2NoGal c2st c2params ≠
      chi2NoGal c2st c2params /
        ((dataSize c2st : ℚ) - (paramsFlatLenNoGal c2st.bandnames.length : ℚ)) := by
  have hmodel : ∀ b o1 o2, modelNoGalaxy c2st c2params b o1 o2 = 0 := by
    intro b o1 o2
    simp [modelNoGalaxy, c2params, translateAndScalePsf]
  have hd1 : c2st.data.n1 = 1 := rfl
  have hd2 : c2st.data.n2 = 2 := rfl
  have hd3 : c2st.data.n3 = 2 := rfl
  have hval : ∀ b i j, c2st.data.val b i j = 1 := fun _ _ _ => rfl
  have hnoise : ∀ b i j, c2st.noisemap.val b i j = 1 := fun _ _ _ => rfl
  have hchi : chi2NoGal c2st c2params = 4 := by
    simp only [chi2NoGal, residualsNoGal, hd1, hd2, hd3, hmodel, hval, hnoise,
      Finset.sum_range_succ, Finset.sum_range_zero]
    norm_num
  have hsize : ((dataSize c2st : ℕ) : ℚ) = 4 := by
    norm_num [show dataSize c2st = 4 from rfl]
  have hdlen : ((paramsDictLenNoGal c2st.bandnames.length : ℕ) : ℚ) = 2 := by
    norm_num [show paramsDictLenNoGal c2st.bandnames.length = 2 from rfl]
  have hflen : ((paramsFlatLenNoGal c2st.bandnames.length : ℕ) : ℚ) = 6 := by
    norm_num [show paramsFlatLenNoGal c2st.bandnames.length = 6 from rfl]
  have e1 : reducedChi2NoGal c2st c2params = 2 := by
    unfold reducedChi2NoGal
    rw [hchi, hsize, hdlen]
    norm_num
  have e2 : chi2NoGal c2st c2params /
      ((dataSize c2st : ℚ) - (paramsFlatLenNoGal c2st.bandnames.length : ℚ)) =
      -2 := by
    rw [hchi, hsize, hflen]
    norm_num
  refine ⟨hchi, rfl, rfl, e1, e2, ?_⟩
  rw [e1, e2]
  norm_num

/-- C2 (amended).  In both model variants the reduced chi-square equals
the sum of squared residuals divided by (number of data pixels minus the
number of TOP-LEVEL entries of the parameter dictionary, `2·nb` without
galaxy and `2·nb + 1` with galaxy for `nb` bands) — not minus the count
of flattened scalar parameters. -/
theorem C2_amended (st : LQState ℝ) (p : ParamsNoGal ℝ) (q : ParamsGal ℝ) :
    reducedChi2NoGal st p =
      chi2NoGal st p /
        ((st.data.n1 * st.data.n2 * st.data.n3 : ℕ) -
          ((1 + st.bandnames.length + (st.bandnames.length - 1) : ℕ) : ℝ)) ∧
    reducedChi2WithGal st q =
      chi2WithGal st q /
        ((st.data.n1 * st.data.n2 * st.data.n3 : ℕ) -
          ((1 + st.bandnames.length + (st.bandnames.length - 1) + 1 : ℕ) : ℝ)) :=
  ⟨rfl, rfl⟩

/-! ## Claim C3 -/

/-- C3.  Additivity of the galaxy-inclusive model: `model_with_galaxy`
equals `model_no_galaxy` on the same parameters plus the stack of
per-band Sérsic renders of the galaxy parameters evaluated at the galaxy
position plus each band's offset (exactly, over ℝ). -/
theorem C3_additivity (st : LQState ℝ) (q : ParamsGal ℝ) (b i j : ℕ) :
    modelWithGalaxy st q b i j =
      modelNoGalaxy st q.toParamsNoGal b i j + galaxyOnlyRender st q b i j :=
  rfl

/-! ## Claim C4 -/

/-- C4.  Shape invariance: whenever the band list is consistent with the
data stack's band count (as `__init__` asserts), both model variants
materialise to a stack of exactly the data stack's shape
`(n1, n2, n3)` — the per-band image shape is the grid shape, which is
taken from the data. -/
theorem C4_shape (st : LQState ℝ) (p : ParamsNoGal ℝ) (q : ParamsGal ℝ)
    (h : st.bandnames.length = st.data.n1) :
    regular3 (modelNoGalaxyStack st p) st.data.n1 st.data.n2 st.data.n3 ∧
    regular3 (modelWithGalaxyStack st q) st.data.n1 st.data.n2 st.data.n3 ∧
    regular3 (arrStack st.data) st.data.n1 st.data.n2 st.data.n3 := by
  refine ⟨?_, ?_, regular3_stack3 _ _ _ _⟩
  · rw [show st.data.n1 = st.bandnames.length from h.symm]
    exact regular3_stack3 _ _ _ _
  · rw [show st.data.n1 = st.bandnames.length from h.symm]
    exact regular3_stack3 _ _ _ _

/-- Witness for `C4_shape` on a concrete one-band state. -/
theorem C4_shape_witness :
    c4st.bandnames.length = c4st.data.n1 ∧
    regular3 (modelNoGalaxyStack c4st c4p) c4st.data.n1 c4st.data.n2
      c4st.data.n3 :=
  ⟨rfl, (C4_shape c4st c4p c4q rfl).1⟩

/-! ## Claim C5 -/

/-- C5.  The Sérsic renderer uses the fixed index `n = 3` with
`b_n = 1.9992·n − 0.3271`, and with `ellip = 0` it returns exactly `I_e`
at every grid point whose distance from the profile centre equals
`r_e ≠ 0` (for any orientation `theta`). -/
theorem C5_sersic (Nx Ny i j : ℕ) (I_e r_e x0 y0 theta : ℝ)
    (hre : r_e ≠ 0)
    (hr : Real.sqrt ((((gridCoord Ny j : ℤ) : ℝ) - x0) ^ 2 +
            (((gridCoord Nx i : ℤ) : ℝ) - y0) ^ 2) = r_e) :
    sersicBn = 1.9992 * 3 - 0.3271 ∧
    ellipticalSersicProfile Nx Ny I_e r_e x0 y0 0 theta i j = I_e := by
  refine ⟨rfl, ?_⟩
  simp only [ellipticalSersicProfile]
  have trig := Real.sin_sq_add_cos_sq (theta * Real.pi / 180)
  have hxy :
      ((((gridCoord Ny j : ℤ) : ℝ) - x0) * Real.cos (theta * Real.pi / 180) +
          (((gridCoord Nx i : ℤ) : ℝ) - y0) * Real.sin (theta * Real.pi / 180)) ^ 2 +
        (((((gridCoord Nx i : ℤ) : ℝ) - y0) * Real.cos (theta * Real.pi / 180) -
            (((gridCoord Ny j : ℤ) : ℝ) - x0) * Real.sin (theta * Real.pi / 180)) /
          (1 - 0)) ^ 2 =
      (((gridCoord Ny j : ℤ) : ℝ) - x0) ^ 2 +
        (((gridCoord Nx i : ℤ) : ℝ) - y0) ^ 2 := by
    linear_combination
      ((((gridCoord Ny j : ℤ) : ℝ) - x0) ^ 2 +
        (((gridCoord Nx i : ℤ) : ℝ) - y0) ^ 2) * trig
  rw [hxy, hr, div_self hre, Real.one_rpow]
  simp

/-- Witness for `C5_sersic` on an 11×9 grid at the pixel with grid
coordinates (3, 4), centre (0,0), `r_e = 5`, `I_e = 2`, `theta = 37`. -/
theorem C5_sersic_witness :
    ((5 : ℝ) ≠ 0) ∧
    Real.sqrt ((((gridCoord 9 8 : ℤ) : ℝ) - 0) ^ 2 +
        (((gridCoord 11 10 : ℤ) : ℝ) - 0) ^ 2) = 5 ∧
    ellipticalSersicProfile 11 9 2 5 0 0 0 37 10 8 = 2 := by
  have h5 : ((5 : ℝ)) ≠ 0 := by norm_num
  have harg : (((gridCoord 9 8 : ℤ) : ℝ) - 0) ^ 2 +
      (((gridCoord 11 10 : ℤ) : ℝ) - 0) ^ 2 = 25 := by
    norm_num [gridCoord]
  have hroot : Real.sqrt ((((gridCoord 9 8 : ℤ) : ℝ) - 0) ^ 2 +
      (((gridCoord 11 10 : ℤ) : ℝ) - 0) ^ 2) = 5 := by
    rw [harg, show (25 : ℝ) = 5 ^ 2 by norm_num,
      Real.sqrt_sq (by norm_num : (0 : ℝ) ≤ 5)]
  exact ⟨h5, hroot, (C5_sersic 11 9 10 8 2 5 0 0 37 h5 hroot).2⟩

/-! ## Claim C6 -/

/-- C6.  The reference band (index 0) never carries an astrometric
offset: its point-source and galaxy positions are the shared positions,
while every other band's positions are the shared position plus that
band's offset; and the two model variants render exactly at these
per-band positions. -/
theorem C6_reference_band (st : LQState ℝ) (p : ParamsNoGal ℝ)
    (q : ParamsGal ℝ) (b o1 o2 : ℕ) :
    (xs1 p 0 = p.x1 ∧ ys1 p 0 = p.y1 ∧ xs2 p 0 = p.x2 ∧ ys2 p 0 = p.y2 ∧
      xgs q 0 = q.gal.xg ∧ ygs q 0 = q.gal.yg) ∧
    (b ≠ 0 →
      xs1 p b = p.x1 + p.dx b ∧ ys1 p b = p.y1 + p.dy b ∧
      xs2 p b = p.x2 + p.dx b ∧ ys2 p b = p.y2 + p.dy b ∧
      xgs q b = q.gal.xg + q.dx b ∧ ygs q b = q.gal.yg + q.dy b) ∧
    (modelNoGalaxy st p b o1 o2 =
      translateAndScalePsf st.data.n2 st.data.n3 st.upsampling st.psf.n2
          st.psf.n3 (xs1 p b) (ys1 p b) (p.A1 b)
          (fun i2 j2 => st.psf.val b i2 j2) o1 o2 +
        translateAndScalePsf st.data.n2 st.data.n3 st.upsampling st.psf.n2
          st.psf.n3 (xs2 p b) (ys2 p b) (p.A2 b)
          (fun i2 j2 => st.psf.val b i2 j2) o1 o2) ∧
    (modelWithGalaxy st q b o1 o2 =
      modelNoGalaxy st q.toParamsNoGal b o1 o2 +
        ellipticalSersicProfile st.data.n2 st.data.n3 (q.gal.I_e b) q.gal.r_e
          (xgs q b) (ygs q b) q.gal.ellip q.gal.theta o1 o2) := by
  refine ⟨?_, ?_, rfl, rfl⟩
  · simp [xs1, ys1, xs2, ys2, xgs, ygs]
  · intro hb
    simp [xs1, ys1, xs2, ys2, xgs, ygs, hb]

/-- Witness for `C6_reference_band` at band 1 with concrete parameters. -/
theorem C6_reference_band_witness :
    ((1 : ℕ) ≠ 0) ∧
    (xs1 c6p 1 = c6p.x1 + c6p.dx 1 ∧ ys1 c6p 1 = c6p.y1 + c6p.dy 1 ∧
      xs2 c6p 1 = c6p.x2 + c6p.dx 1 ∧ ys2 c6p 1 = c6p.y2 + c6p.dy 1 ∧
      xgs c6q 1 = c6q.gal.xg + c6q.dx 1 ∧ ygs c6q 1 = c6q.gal.yg + c6q.dy 1) :=
  ⟨by decide, (C6_reference_band c6st c6p c6q 1 0 0).2.1 (by decide)⟩

/-! ## Claim C7 -/

/-- C7.  On construction, the data and noise stacks are divided by the
99.9th percentile of the data stack, that scale is retained on the
instance, and no subsequent sequence of model / residual / chi-square /
optimizer / sampler / plot calls ever changes the data stack, the noise
stack or the scale. -/
theorem C7_normalization (data noisemap narrowpsf : Arr3 ℝ) (u : ℕ)
    (bn : List ℕ) (st : LQState ℝ)
    (h : init data noisemap narrowpsf u bn = some st) :
    st.scale = percentileNP (999/10) (flatten3 data) ∧
    (∀ b i j, st.data.val b i j = data.val b i j / st.scale) ∧
    (∀ b i j, st.noisemap.val b i j = noisemap.val b i j / st.scale) ∧
    (∀ cs : List (MCall ℝ),
      (runCalls st cs).data = st.data ∧
      (runCalls st cs).noisemap = st.noisemap ∧
      (runCalls st cs).scale = st.scale) := by
  unfold init at h
  split_ifs at h with h1 h2
  · injection h with h
    subst h
    exact ⟨rfl, fun b i j => rfl, fun b i j => rfl,
      fun cs => runCalls_fields _ cs⟩

/-- Witness for `C7_normalization` on a concrete 1×1×1 construction. -/
theorem C7_normalization_witness :
    init c7arr c7arr c7arr 1 [0] = some (mkState c7arr c7arr c7arr 1 [0]) ∧
    (mkState c7arr c7arr c7arr 1 [0]).scale =
      percentileNP (999/10) (flatten3 c7arr) := by
  have h : init c7arr c7arr c7arr 1 [0] =
      some (mkState c7arr c7arr c7arr 1 [0]) := by
    unfold init
    rw [if_pos ⟨rfl, rfl, rfl⟩, if_pos ⟨rfl, rfl⟩]
  exact ⟨h, (C7_normalization c7arr c7arr c7arr 1 [0] _ h).1⟩

/-! ## Claim C8 -/

/-- C8 (code behaviour at the failing input).  `self.psf` is
`gaussian_filter(narrowpsf, 0.85)` applied to the 3-D stack, which
smooths along the BAND axis as well: with the two-band narrow stack
`c8narrow` whose band 1 is identically zero, the smoothed band 1 is
strictly positive (it inherits mass from band 0), whereas smoothing the
all-zero stack leaves band 1 at zero — so a band's smoothed PSF does
not depend only on that band's narrow PSF, contradicting the claim. -/
theorem C8_band_mixing :
    c8narrow.val 1 0 0 = 0 ∧
    0 < (gaussianFilter3 c8narrow).val 1 0 0 ∧
    (gaussianFilter3 c8zero).val 1 0 0 = 0 ∧
    (mkState c8ones c8ones c8narrow 2 [0, 1]).psf = gaussianFilter3 c8narrow := by
  have hv1 : (corrBands c8narrow).val 1 0 0 =
      gaussW (-2) + gaussW (-1) + gaussW 2 + gaussW 3 := by
    simp only [corrBands, c8narrow, Finset.sum_range_succ, Finset.sum_range_zero]
    norm_num [reflectIdx]
    try ring
  have hrows : (corrRows (corrBands c8narrow)).val 1 0 0 =
      (corrBands c8narrow).val 1 0 0 := by
    have hn2 : (corrBands c8narrow).n2 = 1 := rfl
    simp only [corrRows, hn2, reflectIdx_one]
    rw [← Finset.sum_mul, gaussW_sum, one_mul]
  have hcols : (corrCols (corrRows (corrBands c8narrow))).val 1 0 0 =
      (corrRows (corrBands c8narrow)).val 1 0 0 := by
    have hn3 : (corrRows (corrBands c8narrow)).n3 = 1 := rfl
    simp only [corrCols, hn3, reflectIdx_one]
    rw [← Finset.sum_mul, gaussW_sum, one_mul]
  have hpos : 0 < gaussW (-2) + gaussW (-1) + gaussW 2 + gaussW 3 := by
    have g1 := gaussW_pos (-2)
    have g2 := gaussW_pos (-1)
    have g3 := gaussW_pos 2
    have g4 := gaussW_pos 3
    linarith
  refine ⟨by norm_num [c8narrow], ?_, ?_, rfl⟩
  · show 0 < (corrCols (corrRows (corrBands c8narrow))).val 1 0 0
    rw [hcols, hrows, hv1]
    exact hpos
  · simp [gaussianFilter3, corrCols, corrRows, corrBands, c8zero]

/-! ## Claim C9 -/

/-- C9 (amended).  Construction succeeds if and only if the data and
noise stacks have equal shape and the PSF stack's band count matches the
data's band count and the band list's length.  No per-band PSF size is
ever checked. -/
theorem C9_construction (data noisemap narrowpsf : Arr3 ℝ) (u : ℕ)
    (bn : List ℕ) :
    (init data noisemap narrowpsf u bn).isSome = true ↔
      ((data.n1 = noisemap.n1 ∧ data.n2 = noisemap.n2 ∧ data.n3 = noisemap.n3) ∧
        (data.n1 = narrowpsf.n1 ∧ narrowpsf.n1 = bn.length)) := by
  unfold init
  split_ifs with h1 h2 <;> simp_all

/-- C9 (counterexample).  Construction succeeds on one-band 5×5 data with
a one-band 17×17 PSF and supersampling factor 2, although the per-band
PSF size is inconsistent with the data stack (17 is not even a multiple
of the supersampling factor): the claimed per-band-size check does not
exist. -/
theorem C9_counterexample :
    c9data.n2 = 5 ∧ c9psf.n2 = 17 ∧
    (init c9data c9data c9psf 2 [0]).isSome = true := by
  refine ⟨rfl, rfl, ?_⟩
  unfold init
  rw [if_pos ⟨rfl, rfl, rfl⟩, if_pos ⟨rfl, rfl⟩]
  rfl

/-! ## Claim C10 -/

/-- C10.  The amplitude is a pure multiplicative factor of
`translate_and_scale_psf`: the rendered point source is homogeneous in
its amplitude. -/
theorem C10_amplitude_linear (Nx Ny s mA mB : ℕ) (dx dy a : ℚ)
    (psf : ℕ → ℕ → ℚ) (o1 o2 : ℕ) :
    translateAndScalePsf Nx Ny s mA mB dx dy a psf o1 o2 =
      a * translateAndScalePsf Nx Ny s mA mB dx dy 1 psf o1 o2 :=
  translateAndScalePsf_amp Nx Ny s mA mB dx dy a psf o1 o2

end LQU
